import Mathlib

set_option autoImplicit false

/-!
Verification of the Creality Control integration's connection core.

The definitions below are a shallow embedding of
`custom_components/creality_control/__init__.py`: the WebSocket client's
state machine (`ConnectionState`, `isHealthy`, `handleMessage`,
`handleConnectionError`, the drive loop `_run`), the coordinator's
fallback poll path, and the DES-based token generation.  Python dicts are
modelled as association lists with Python's insertion/overwrite semantics,
timestamps as rationals, and the effects of a call (socket writes,
listener notifications, the one-time export hook) as explicit fields of
the state or components of the result.
-/

namespace Creality

/-- A JSON value as carried in a decoded frame. -/
inductive JValue where
  | jstr (s : String)
  | jnum (n : Int)
  | jbool (b : Bool)
  | jnull
  deriving DecidableEq, Repr

/-- A decoded JSON object frame: a Python dict modelled as an association
list (insertion ordered, keys unique in every dict produced by the code). -/
abbrev Frame := List (String × JValue)

/-- Python `d[k]` lookup, as an option: value at the first matching key. -/
def dictGet (d : Frame) (k : String) : Option JValue :=
  match d with
  | [] => none
  | (k2, v) :: rest => if k2 = k then some v else dictGet rest k

/-- Python `k in d`. -/
def hasKey (d : Frame) (k : String) : Bool :=
  (dictGet d k).isSome

/-- Python `d[k] = v`: overwrite in place if the key exists, else append. -/
def dictSet (d : Frame) (k : String) (v : JValue) : Frame :=
  match d with
  | [] => [(k, v)]
  | (k2, v2) :: rest => if k2 = k then (k, v) :: rest else (k2, v2) :: dictSet rest k v

/-- Python `old.update(upd)`: assign every binding of `upd` into `old`. -/
def dictUpdate (old upd : Frame) : Frame :=
  upd.foldl (fun acc p => dictSet acc p.1 p.2) old

/-- Value at the last matching key of a list of bindings (the binding that
wins when the list is assigned into a dict left to right). -/
def lastGet (d : Frame) (k : String) : Option JValue :=
  match d with
  | [] => none
  | (k2, v) :: rest =>
    match lastGet rest k with
    | some w => some w
    | none => if k2 = k then some v else none

/-- The keys of a frame are pairwise distinct, as in any real Python dict. -/
def KeysNodup (d : Frame) : Prop :=
  (d.map Prod.fst).Nodup

instance (d : Frame) : Decidable (KeysNodup d) := by
  unfold KeysNodup; infer_instance

/-- Python truthiness of an optional dict: `None` and `{}` are falsy. -/
def truthy : Option Frame → Bool
  | none => false
  | some d => !d.isEmpty

/-- Lookup through an optional snapshot. -/
def snapGet (osnap : Option Frame) (k : String) : Option JValue :=
  match osnap with
  | none => none
  | some d => dictGet d k

/-- The `ConnectionState` enum. -/
inductive ConnState where
  | disconnected
  | connecting
  | connected
  | stale
  | reconnecting
  deriving DecidableEq, Repr

/-- The mutable state of `CrealityWebSocketClient` together with its
coordinator's snapshot, restricted to the fields the handler and the
health query touch.  `notifyCount` counts `async_update_listeners` calls
and `firstFrameExported` records whether the one-time raw-data export hook
has fired; both instrument observable effects of `_handle_message`. -/
structure WSClient where
  connState : ConnState
  lastMessageTime : ℚ
  snapshot : Option Frame
  notifyCount : Nat
  firstFrameExported : Bool
  deriving DecidableEq, Repr

/-- The `_set_state` helper: a no-op when the state is unchanged. -/
def setState (st : WSClient) (s : ConnState) : WSClient :=
  if st.connState = s then st else { st with connState := s }

/-- The staleness threshold (seconds) used by `is_healthy`. -/
def staleThreshold : ℚ := 90

/-- The `is_healthy` query of `CrealityWebSocketClient`: returns the
boolean answer and the state after the query's side effect (the possible
transition to `stale`). -/
def isHealthy (now : ℚ) (st : WSClient) : Bool × WSClient :=
  if st.connState ≠ ConnState.connected then (false, st)
  else if now - st.lastMessageTime > staleThreshold then
    (false, if st.connState ≠ ConnState.stale then setState st ConnState.stale else st)
  else (true, st)

/-- Model detection in `_handle_message` and `_poll_data`: when neither
model-identifying field is present, add a label derived from the port. -/
def inferModel (port : Nat) (f : Frame) : Frame :=
  if hasKey f "model" = false ∧ hasKey f "printerModel" = false then
    if port = 9999 then dictSet f "detected_model" (JValue.jstr "K1 Series (FDM)")
    else if port = 18188 then dictSet f "detected_model" (JValue.jstr "Halot Series (Resin)")
    else f
  else f

/-- The `_handle_message` handler of `CrealityWebSocketClient` applied to a
successfully decoded frame at time `now`. -/
def handleMessage (port : Nat) (now : ℚ) (data : Frame) (st : WSClient) : WSClient :=
  let st1 := { st with lastMessageTime := now }
  if data.isEmpty then st1
  else
    let d := inferModel port data
    if truthy st1.snapshot then
      { st1 with
          snapshot := some (dictUpdate (st1.snapshot.getD []) d)
          notifyCount := st1.notifyCount + 1 }
    else
      { st1 with
          snapshot := some d
          firstFrameExported := true
          notifyCount := st1.notifyCount + 1 }

/-- The effect of one handled frame on the snapshot alone. -/
def applyFrame (port : Nat) (osnap : Option Frame) (f : Frame) : Option Frame :=
  if f.isEmpty then osnap
  else
    let d := inferModel port f
    if truthy osnap then some (dictUpdate (osnap.getD []) d) else some d

/-- Run the handler over a list of timestamped frames. -/
def runFrames (port : Nat) (inputs : List (ℚ × Frame)) (st : WSClient) : WSClient :=
  inputs.foldl (fun s p => handleMessage port p.1 p.2 s) st

/-- A client as built by `__init__`: disconnected, empty snapshot. -/
def initClient : WSClient :=
  { connState := ConnState.disconnected
    lastMessageTime := 0
    snapshot := none
    notifyCount := 0
    firstFrameExported := false }

/-! ## Drive loop and reconnect backoff -/

/-- Client configuration constants set in `__init__`. -/
def maxReconnectAttempts : Nat := 10

def baseReconnectDelay : ℚ := 1

def maxReconnectDelay : ℚ := 60

/-- The pre-jitter backoff delay computed by `_handle_connection_error`
when the attempt counter holds `n`. -/
def computeDelay (n : Nat) : ℚ :=
  min (baseReconnectDelay * 2 ^ n) maxReconnectDelay

/-- The total slept delay for a jitter draw `j` (the `random.uniform(0.1,
0.5)` factor): `delay + j * delay`. -/
def totalDelay (n : Nat) (j : ℚ) : ℚ :=
  computeDelay n + j * computeDelay n

/-- The state threaded through the `_run` drive loop.  `connectAttempts`
counts how many times `_connect` has opened a socket attempt and
`sleptDelays` records every pre-jitter backoff delay slept, both
instrumenting observable effects of the loop. -/
structure RunSt where
  shutdown : Bool
  connState : ConnState
  attempts : Nat
  connectAttempts : Nat
  sleptDelays : List ℚ
  deriving DecidableEq, Repr

/-- The `_handle_connection_error` handler: disconnect, then either give
up at the attempt cap or increment the counter and sleep the backoff. -/
def handleConnectionError (st : RunSt) : RunSt :=
  let st1 := { st with connState := ConnState.disconnected }
  if st1.shutdown then st1
  else if maxReconnectAttempts ≤ st1.attempts then
    { st1 with connState := ConnState.disconnected }
  else
    let st2 := { st1 with connState := ConnState.reconnecting, attempts := st1.attempts + 1 }
    { st2 with sleptDelays := st2.sleptDelays ++ [computeDelay st2.attempts] }

/-- One iteration of the `while not self._shutdown` body of `_run` in a
run where every connect attempt fails: `_connect` (skipped when already
connected) raises, and control passes to `_handle_connection_error`. -/
def runIterConnectFail (st : RunSt) : RunSt :=
  if st.shutdown then st
  else
    let st1 :=
      if st.connState = ConnState.connected then st
      else { st with connState := ConnState.connecting
                     connectAttempts := st.connectAttempts + 1 }
    handleConnectionError st1

/-- Iterate the always-failing drive loop `n` times. -/
def runConnectFail : Nat → RunSt → RunSt
  | 0, st => st
  | n + 1, st => runConnectFail n (runIterConnectFail st)

/-- The drive-loop state at session start. -/
def initRunSt : RunSt :=
  { shutdown := false
    connState := ConnState.disconnected
    attempts := 0
    connectAttempts := 0
    sleptDelays := [] }

/-! ## Command dispatch -/

/-- An outbound frame written to the socket. -/
inductive OutMsg where
  | cmdMsg (cmd : String) (token : String)
  | jsonMsg (payload : Frame)
  deriving DecidableEq, Repr

/-- The connection-relevant state read by `send_command` / `send_json`:
the state field, whether `self.ws` is set, and whether it is closed. -/
structure SendSt where
  connState : ConnState
  wsExists : Bool
  wsClosed : Bool
  password : String
  deriving DecidableEq, Repr

/-! ## TokenCipher: DES-ECB with PKCS7 padding and base64 encoding

The `_generate_token` methods build a DES cipher in ECB mode over the
8-byte key `unhexlify("6138356539643638")`, pad the UTF-8 encoded password
to the 8-byte block size (PKCS7), encrypt, and base64-encode the result.
The DES primitive itself is embedded below from the standard (FIPS 46)
tables; bytes are naturals below 256, bit strings are lists of booleans,
most significant bit first. -/

/-- Standard DES table. -/
def tableIP : List Nat :=
  [58, 50, 42, 34, 26, 18, 10, 2, 60, 52, 44, 36, 28, 20, 12, 4,
   62, 54, 46, 38, 30, 22, 14, 6, 64, 56, 48, 40, 32, 24, 16, 8,
   57, 49, 41, 33, 25, 17, 9, 1, 59, 51, 43, 35, 27, 19, 11, 3,
   61, 53, 45, 37, 29, 21, 13, 5, 63, 55, 47, 39, 31, 23, 15, 7]

/-- Standard DES table. -/
def tableFP : List Nat :=
  [40, 8, 48, 16, 56, 24, 64, 32, 39, 7, 47, 15, 55, 23, 63, 31,
   38, 6, 46, 14, 54, 22, 62, 30, 37, 5, 45, 13, 53, 21, 61, 29,
   36, 4, 44, 12, 52, 20, 60, 28, 35, 3, 43, 11, 51, 19, 59, 27,
   34, 2, 42, 10, 50, 18, 58, 26, 33, 1, 41, 9, 49, 17, 57, 25]

/-- Standard DES table. -/
def tableE : List Nat :=
  [32, 1, 2, 3, 4, 5, 4, 5, 6, 7, 8, 9, 8, 9, 10, 11, 12, 13,
   12, 13, 14, 15, 16, 17, 16, 17, 18, 19, 20, 21, 20, 21, 22, 23, 24, 25,
   24, 25, 26, 27, 28, 29, 28, 29, 30, 31, 32, 1]

/-- Standard DES table. -/
def tableP : List Nat :=
  [16, 7, 20, 21, 29, 12, 28, 17, 1, 15, 23, 26, 5, 18, 31, 10,
   2, 8, 24, 14, 32, 27, 3, 9, 19, 13, 30, 6, 22, 11, 4, 25]

/-- Standard DES table. -/
def tablePC1 : List Nat :=
  [57, 49, 41, 33, 25, 17, 9, 1, 58, 50, 42, 34, 26, 18,
   10, 2, 59, 51, 43, 35, 27, 19, 11, 3, 60, 52, 44, 36,
   63, 55, 47, 39, 31, 23, 15, 7, 62, 54, 46, 38, 30, 22,
   14, 6, 61, 53, 45, 37, 29, 21, 13, 5, 28, 20, 12, 4]

/-- Standard DES table. -/
def tablePC2 : List Nat :=
  [14, 17, 11, 24, 1, 5, 3, 28, 15, 6, 21, 10,
   23, 19, 12, 4, 26, 8, 16, 7, 27, 20, 13, 2,
   41, 52, 31, 37, 47, 55, 30, 40, 51, 45, 33, 48,
   44, 49, 39, 56, 34, 53, 46, 42, 50, 36, 29, 32]

/-- Standard DES table. -/
def tableShifts : List Nat :=
  [1, 1, 2, 2, 2, 2, 2, 2, 1, 2, 2, 2, 2, 2, 2, 1]

/-- The eight DES S-boxes. -/
def tableSBoxes : List (List Nat) :=
  [[14, 4, 13, 1, 2, 15, 11, 8, 3, 10, 6, 12, 5, 9, 0, 7,
    0, 15, 7, 4, 14, 2, 13, 1, 10, 6, 12, 11, 9, 5, 3, 8,
    4, 1, 14, 8, 13, 6, 2, 11, 15, 12, 9, 7, 3, 10, 5, 0,
    15, 12, 8, 2, 4, 9, 1, 7, 5, 11, 3, 14, 10, 0, 6, 13],
   [15, 1, 8, 14, 6, 11, 3, 4, 9, 7, 2, 13, 12, 0, 5, 10,
    3, 13, 4, 7, 15, 2, 8, 14, 12, 0, 1, 10, 6, 9, 11, 5,
    0, 14, 7, 11, 10, 4, 13, 1, 5, 8, 12, 6, 9, 3, 2, 15,
    13, 8, 10, 1, 3, 15, 4, 2, 11, 6, 7, 12, 0, 5, 14, 9],
   [10, 0, 9, 14, 6, 3, 15, 5, 1, 13, 12, 7, 11, 4, 2, 8,
    13, 7, 0, 9, 3, 4, 6, 10, 2, 8, 5, 14, 12, 11, 15, 1,
    13, 6, 4, 9, 8, 15, 3, 0, 11, 1, 2, 12, 5, 10, 14, 7,
    1, 10, 13, 0, 6, 9, 8, 7, 4, 15, 14, 3, 11, 5, 2, 12],
   [7, 13, 14, 3, 0, 6, 9, 10, 1, 2, 8, 5, 11, 12, 4, 15,
    13, 8, 11, 5, 6, 15, 0, 3, 4, 7, 2, 12, 1, 10, 14, 9,
    10, 6, 9, 0, 12, 11, 7, 13, 15, 1, 3, 14, 5, 2, 8, 4,
    3, 15, 0, 6, 10, 1, 13, 8, 9, 4, 5, 11, 12, 7, 2, 14],
   [2, 12, 4, 1, 7, 10, 11, 6, 8, 5, 3, 15, 13, 0, 14, 9,
    14, 11, 2, 12, 4, 7, 13, 1, 5, 0, 15, 10, 3, 9, 8, 6,
    4, 2, 1, 11, 10, 13, 7, 8, 15, 9, 12, 5, 6, 3, 0, 14,
    11, 8, 12, 7, 1, 14, 2, 13, 6, 15, 0, 9, 10, 4, 5, 3],
   [12, 1, 10, 15, 9, 2, 6, 8, 0, 13, 3, 4, 14, 7, 5, 11,
    10, 15, 4, 2, 7, 12, 9, 5, 6, 1, 13, 14, 0, 11, 3, 8,
    9, 14, 15, 5, 2, 8, 12, 3, 7, 0, 4, 10, 1, 13, 11, 6,
    4, 3, 2, 12, 9, 5, 15, 10, 11, 14, 1, 7, 6, 0, 8, 13],
   [4, 11, 2, 14, 15, 0, 8, 13, 3, 12, 9, 7, 5, 10, 6, 1,
    13, 0, 11, 7, 4, 9, 1, 10, 14, 3, 5, 12, 2, 15, 8, 6,
    1, 4, 11, 13, 12, 3, 7, 14, 10, 15, 6, 8, 0, 5, 9, 2,
    6, 11, 13, 8, 1, 4, 10, 7, 9, 5, 0, 15, 14, 2, 3, 12],
   [13, 2, 8, 4, 6, 15, 11, 1, 10, 9, 3, 14, 5, 0, 12, 7,
    1, 15, 13, 8, 10, 3, 7, 4, 12, 5, 6, 11, 0, 14, 9, 2,
    7, 11, 4, 1, 9, 12, 14, 2, 0, 6, 10, 13, 15, 3, 5, 8,
    2, 1, 14, 7, 4, 10, 8, 13, 15, 12, 9, 0, 3, 5, 6, 11]]


/-- The eight bits of a byte, most significant first. -/
def byteToBits (b : Nat) : List Bool :=
  [b.testBit 7, b.testBit 6, b.testBit 5, b.testBit 4,
   b.testBit 3, b.testBit 2, b.testBit 1, b.testBit 0]

/-- Concatenated bits of a byte string. -/
def bytesToBits (bs : List Nat) : List Bool :=
  bs.foldr (fun b acc => byteToBits b ++ acc) []

/-- Read a bit string as a big-endian natural. -/
def bitsToNat (bits : List Bool) : Nat :=
  bits.foldl (fun acc b => 2 * acc + (if b then 1 else 0)) 0

/-- Regroup a bit string into bytes. -/
def bitsToBytes (bits : List Bool) : List Nat :=
  (List.range (bits.length / 8)).map (fun i => bitsToNat ((bits.drop (8 * i)).take 8))

/-- Apply a DES permutation/selection table (1-indexed positions). -/
def desPermute (table : List Nat) (bits : List Bool) : List Bool :=
  table.map (fun i => bits.getD (i - 1) false)

/-- Bitwise exclusive or of two bit strings. -/
def xorBits (a b : List Bool) : List Bool :=
  List.zipWith xor a b

/-- Rotate a bit string left by `n`. -/
def rotl (n : Nat) (l : List Bool) : List Bool :=
  l.drop n ++ l.take n

/-- One S-box substitution: six bits in, four bits out. -/
def sboxLookup (box : List Nat) (six : List Bool) : List Bool :=
  let row := (if six.getD 0 false then 2 else 0) + (if six.getD 5 false then 1 else 0)
  let col := bitsToNat ((six.drop 1).take 4)
  let v := box.getD (row * 16 + col) 0
  [v.testBit 3, v.testBit 2, v.testBit 1, v.testBit 0]

/-- All eight S-box substitutions over a 48-bit string. -/
def sboxes (bits48 : List Bool) : List Bool :=
  (List.range 8).foldr
    (fun i acc => sboxLookup (tableSBoxes.getD i []) ((bits48.drop (6 * i)).take 6) ++ acc) []

/-- The DES round function `f(R, K) = P(S(E(R) xor K))`. -/
def feistel (r k : List Bool) : List Bool :=
  desPermute tableP (sboxes (xorBits (desPermute tableE r) k))

/-- The sixteen 48-bit round keys derived from a 64-bit key. -/
def desSubkeys (keyBits : List Bool) : List (List Bool) :=
  let k := desPermute tablePC1 keyBits
  let start : List Bool × List Bool × List (List Bool) := (k.take 28, k.drop 28, [])
  (tableShifts.foldl
    (fun st s =>
      let c := rotl s st.1
      let d := rotl s st.2.1
      (c, d, st.2.2 ++ [desPermute tablePC2 (c ++ d)]))
    start).2.2

/-- Encrypt one 64-bit block under the given round keys. -/
def desEncryptBlock (keys : List (List Bool)) (block : List Bool) : List Bool :=
  let b := desPermute tableIP block
  let lr := keys.foldl
    (fun (p : List Bool × List Bool) k => (p.2, xorBits p.1 (feistel p.2 k)))
    (b.take 32, b.drop 32)
  desPermute tableFP (lr.2 ++ lr.1)

/-- DES-ECB encryption of a byte string whose length is a multiple of 8. -/
def desEcbEncrypt (key data : List Nat) : List Nat :=
  let ks := desSubkeys (bytesToBits key)
  (List.range (data.length / 8)).foldr
    (fun i acc => bitsToBytes (desEncryptBlock ks (bytesToBits ((data.drop (8 * i)).take 8))) ++ acc)
    []

/-- PKCS7 padding to the DES block size of 8 bytes. -/
def pkcs7pad (data : List Nat) : List Nat :=
  let r := 8 - data.length % 8
  data ++ List.replicate r r

/-- UTF-8 encoding of one character. -/
def charUtf8 (c : Char) : List Nat :=
  let n := c.toNat
  if n < 128 then [n]
  else if n < 2048 then [192 + n / 64, 128 + n % 64]
  else if n < 65536 then [224 + n / 4096, 128 + (n / 64) % 64, 128 + n % 64]
  else [240 + n / 262144, 128 + (n / 4096) % 64, 128 + (n / 64) % 64, 128 + n % 64]

/-- Python `s.encode()`: the UTF-8 bytes of a string. -/
def strToBytes (s : String) : List Nat :=
  s.data.foldr (fun c acc => charUtf8 c ++ acc) []

/-- The base64 alphabet. -/
def b64Alphabet : List Char :=
  "ABCDEFGHIJKLMNOPQRSTUVWXYZabcdefghijklmnopqrstuvwxyz0123456789+/".data

/-- The base64 digit for a 6-bit value. -/
def b64Char (n : Nat) : Char :=
  b64Alphabet.getD n '='

/-- Standard base64 encoding with padding. -/
def b64Encode : List Nat → String
  | [] => ""
  | [b1] =>
    String.mk [b64Char (b1 / 4), b64Char (b1 % 4 * 16), '=', '=']
  | [b1, b2] =>
    String.mk [b64Char (b1 / 4), b64Char (b1 % 4 * 16 + b2 / 16), b64Char (b2 % 16 * 4), '=']
  | b1 :: b2 :: b3 :: rest =>
    String.mk [b64Char (b1 / 4), b64Char (b1 % 4 * 16 + b2 / 16),
               b64Char (b2 % 16 * 4 + b3 / 64), b64Char (b3 % 64)] ++ b64Encode rest

/-- The embedded constant key: `unhexlify("6138356539643638")`. -/
def desKeyBytes : List Nat :=
  [97, 56, 53, 101, 57, 100, 54, 56]

namespace CrealityWebSocketClient

/-- The `_generate_token` method of `CrealityWebSocketClient`. -/
def generateToken (password : String) : String :=
  let pw := if password.isEmpty then "" else password
  let key := desKeyBytes.take 8
  let padded := pkcs7pad (strToBytes pw)
  let encrypted := desEcbEncrypt key padded
  b64Encode encrypted

end CrealityWebSocketClient

namespace CrealityDataCoordinator

/-- The `_generate_token` method of `CrealityDataCoordinator`. -/
def generateToken (password : String) : String :=
  let pw := if password.isEmpty then "" else password
  let key := desKeyBytes.take 8
  let padded := pkcs7pad (strToBytes pw)
  let encrypted := desEcbEncrypt key padded
  b64Encode encrypted

end CrealityDataCoordinator

/-! ## Command dispatch operations -/

/-- The `send_command` method: rejected unless the state is `connected`,
a socket object exists, and it is not closed; otherwise a token is
generated and `{"cmd": command, "token": token}` is written.  `writeOk`
stands for whether the socket write raises; the third component is the
frame whose write was attempted, `none` when no write happened. -/
def sendCommand (command : String) (writeOk : Bool) (st : SendSt) :
    Bool × SendSt × Option OutMsg :=
  if st.connState ≠ ConnState.connected ∨ st.wsExists = false ∨ st.wsClosed = true then
    (false, st, none)
  else
    let token := CrealityWebSocketClient.generateToken st.password
    (writeOk, st, some (OutMsg.cmdMsg command token))

/-- The `send_json` method: same availability precondition, payload
written verbatim with no token. -/
def sendJson (payload : Frame) (writeOk : Bool) (st : SendSt) :
    Bool × SendSt × Option OutMsg :=
  if st.connState ≠ ConnState.connected ∨ st.wsExists = false ∨ st.wsClosed = true then
    (false, st, none)
  else
    (writeOk, st, some (OutMsg.jsonMsg payload))

/-! ## Coordinator update and fallback poll -/

/-- The success path of `CrealityDataCoordinator._poll_data` given the
single frame received on the one-shot connection: a truthy frame gets the
model-inference rule and is returned as is; a falsy frame falls off the
method, which returns `None`. -/
def pollData (port : Nat) (frame : Frame) : Option Frame :=
  if frame.isEmpty then none else some (inferModel port frame)

/-- The `CrealityDataCoordinator._async_update_data` method.  `healthy`
is `ws_client is set and ws_client.is_healthy()`, `curData` is
`self.data`, and `pollResult` the value `_poll_data` would produce.  The
surrounding Home Assistant `DataUpdateCoordinator` stores the returned
mapping wholesale as the coordinator's new `data`. -/
def asyncUpdateData (healthy : Bool) (curData : Option Frame) (pollResult : Option Frame) :
    Option Frame :=
  if healthy = false then pollResult
  else if truthy curData then curData
  else pollResult

/-! ## Lemmas about the dict model -/

/-- Left-biased choice of two optional values, as produced by a merge. -/
def mergeLookup (a b : Option JValue) : Option JValue :=
  match a with
  | some w => some w
  | none => b

/-- The value a sequence of frames assigns to a key: the value in the most
recent (latest) frame containing that key. -/
def recentValue (frames : List Frame) (k : String) : Option JValue :=
  match frames with
  | [] => none
  | f :: rest => mergeLookup (recentValue rest k) (dictGet f k)

theorem dictGet_dictSet_same (d : Frame) (k : String) (v : JValue) :
    dictGet (dictSet d k v) k = some v := by
  induction d with
  | nil => simp [dictSet, dictGet]
  | cons p rest ih =>
    obtain ⟨k2, v2⟩ := p
    by_cases h : k2 = k
    · simp [dictSet, dictGet, h]
    · simp [dictSet, dictGet, h, ih]

theorem dictGet_dictSet_other (d : Frame) (k : String) (v : JValue) (k2 : String)
    (h : k2 ≠ k) : dictGet (dictSet d k v) k2 = dictGet d k2 := by
  have hk : k ≠ k2 := Ne.symm h
  induction d with
  | nil => simp [dictSet, dictGet, hk]
  | cons p rest ih =>
    obtain ⟨k3, v3⟩ := p
    by_cases h3 : k3 = k
    · subst h3
      simp [dictSet, dictGet, hk]
    · simp [dictSet, dictGet, h3, ih]

theorem dictGet_eq_none (d : Frame) (k : String) (h : k ∉ d.map Prod.fst) :
    dictGet d k = none := by
  induction d with
  | nil => rfl
  | cons p rest ih =>
    obtain ⟨k2, v2⟩ := p
    have h1 : ¬ (k2 = k) := by
      intro hh
      exact h (by simp [hh])
    have h2 : k ∉ rest.map Prod.fst := by
      intro hh
      exact h (by simp [hh])
    simp [dictGet, h1, ih h2]

theorem dictGet_dictUpdate (upd old : Frame) (k : String) :
    dictGet (dictUpdate old upd) k = mergeLookup (lastGet upd k) (dictGet old k) := by
  induction upd generalizing old with
  | nil => simp [dictUpdate, lastGet, mergeLookup]
  | cons p rest ih =>
    obtain ⟨k2, v2⟩ := p
    have step : dictUpdate old ((k2, v2) :: rest) = dictUpdate (dictSet old k2 v2) rest := rfl
    rw [step, ih]
    cases hrest : lastGet rest k with
    | some w => simp [lastGet, hrest, mergeLookup]
    | none =>
      by_cases h2 : k2 = k
      · subst h2
        simp [lastGet, hrest, mergeLookup, dictGet_dictSet_same]
      · simp [lastGet, hrest, mergeLookup, h2, dictGet_dictSet_other old k2 v2 k
          (fun hh => h2 (Eq.symm hh))]

theorem lastGet_eq_dictGet (d : Frame) (k : String) (h : KeysNodup d) :
    lastGet d k = dictGet d k := by
  induction d with
  | nil => rfl
  | cons p rest ih =>
    obtain ⟨k2, v2⟩ := p
    have h' : (k2 :: rest.map Prod.fst).Nodup := by simpa [KeysNodup] using h
    have hk2 : k2 ∉ rest.map Prod.fst := (List.nodup_cons.mp h').1
    have hrest : KeysNodup rest := (List.nodup_cons.mp h').2
    by_cases h2 : k2 = k
    · subst h2
      simp [lastGet, dictGet, ih hrest, dictGet_eq_none rest k2 hk2]
    · simp [lastGet, dictGet, h2, ih hrest]
      cases dictGet rest k <;> simp

theorem mergeLookup_none (a : Option JValue) : mergeLookup a none = a := by
  cases a <;> rfl

theorem mergeLookup_assoc (a b c : Option JValue) :
    mergeLookup a (mergeLookup b c) = mergeLookup (mergeLookup a b) c := by
  cases a <;> cases b <;> rfl

theorem mem_keys_dictSet (d : Frame) (k : String) (v : JValue) (a : String)
    (h : a ∈ (dictSet d k v).map Prod.fst) : a = k ∨ a ∈ d.map Prod.fst := by
  induction d with
  | nil =>
    rw [show (dictSet ([] : Frame) k v).map Prod.fst = [k] from rfl] at h
    exact Or.inl (List.mem_singleton.mp h)
  | cons p rest ih =>
    obtain ⟨k2, v2⟩ := p
    by_cases h2 : k2 = k
    · rw [show dictSet ((k2, v2) :: rest) k v = (k, v) :: rest from by simp [dictSet, h2],
        List.map_cons] at h
      rcases List.mem_cons.mp h with h | h
      · exact Or.inl h
      · exact Or.inr (by rw [List.map_cons]; exact List.mem_cons.mpr (Or.inr h))
    · rw [show dictSet ((k2, v2) :: rest) k v = (k2, v2) :: dictSet rest k v from by
        simp [dictSet, h2], List.map_cons] at h
      rcases List.mem_cons.mp h with h | h
      · exact Or.inr (by rw [List.map_cons]; exact List.mem_cons.mpr (Or.inl h))
      · rcases ih h with h | h
        · exact Or.inl h
        · exact Or.inr (by rw [List.map_cons]; exact List.mem_cons.mpr (Or.inr h))

theorem keysNodup_dictSet (d : Frame) (k : String) (v : JValue) (h : KeysNodup d) :
    KeysNodup (dictSet d k v) := by
  induction d with
  | nil => simp [KeysNodup, dictSet]
  | cons p rest ih =>
    obtain ⟨k2, v2⟩ := p
    have h' : (k2 :: rest.map Prod.fst).Nodup := by simpa [KeysNodup] using h
    have hk2 : k2 ∉ rest.map Prod.fst := (List.nodup_cons.mp h').1
    have hrest : KeysNodup rest := (List.nodup_cons.mp h').2
    by_cases h2 : k2 = k
    · subst h2
      simpa [KeysNodup, dictSet] using h'
    · have : KeysNodup ((k2, v2) :: dictSet rest k v) := by
        have hmem : k2 ∉ (dictSet rest k v).map Prod.fst := by
          intro hm
          rcases mem_keys_dictSet rest k v k2 hm with h3 | h3
          · exact h2 h3
          · exact hk2 h3
        simpa [KeysNodup] using List.nodup_cons.mpr ⟨hmem, ih hrest⟩
      simpa [dictSet, h2] using this

theorem dictGet_inferModel (port : Nat) (f : Frame) (k : String)
    (hk : k ≠ "detected_model") : dictGet (inferModel port f) k = dictGet f k := by
  simp only [inferModel]
  split_ifs <;> simp [dictGet_dictSet_other _ _ _ _ hk]

theorem keysNodup_inferModel (port : Nat) (f : Frame) (h : KeysNodup f) :
    KeysNodup (inferModel port f) := by
  simp only [inferModel]
  split_ifs <;> first
    | exact h
    | exact keysNodup_dictSet _ _ _ h

/-- Accumulated snapshot after a list of frames has been handled. -/
def foldSnapshot (port : Nat) (osnap : Option Frame) (frames : List Frame) : Option Frame :=
  frames.foldl (applyFrame port) osnap

theorem snapGet_applyFrame (port : Nat) (osnap : Option Frame) (f : Frame) (k : String)
    (hf : f ≠ []) (hnd : KeysNodup f) (hk : k ≠ "detected_model") :
    snapGet (applyFrame port osnap f) k = mergeLookup (dictGet f k) (snapGet osnap k) := by
  have hfe : f.isEmpty = false := by
    cases f with
    | nil => exact absurd rfl hf
    | cons a t => rfl
  have hget : dictGet (inferModel port f) k = dictGet f k := dictGet_inferModel port f k hk
  by_cases ht : truthy osnap = true
  · cases osnap with
    | none => simp [truthy] at ht
    | some d =>
      simp only [applyFrame, hfe, Bool.false_eq_true, if_false, ht, if_true, snapGet,
        Option.getD_some]
      rw [dictGet_dictUpdate, lastGet_eq_dictGet _ _ (keysNodup_inferModel port f hnd), hget]
  · have ht' : truthy osnap = false := by
      cases hcase : truthy osnap
      · rfl
      · exact absurd hcase ht
    have hnone : snapGet osnap k = none := by
      cases osnap with
      | none => rfl
      | some d =>
        cases d with
        | nil => rfl
        | cons a t => simp [truthy] at ht'
    have hres : applyFrame port osnap f = some (inferModel port f) := by
      simp [applyFrame, hfe, ht']
    rw [hres, show snapGet (some (inferModel port f)) k = dictGet (inferModel port f) k
      from rfl, hget, hnone, mergeLookup_none]

theorem snapGet_foldSnapshot (port : Nat) (frames : List Frame) (osnap : Option Frame)
    (k : String) (hne : ∀ f ∈ frames, f ≠ []) (hnd : ∀ f ∈ frames, KeysNodup f)
    (hk : k ≠ "detected_model") :
    snapGet (foldSnapshot port osnap frames) k
      = mergeLookup (recentValue frames k) (snapGet osnap k) := by
  induction frames generalizing osnap with
  | nil => simp [foldSnapshot, recentValue, mergeLookup]
  | cons f rest ih =>
    have h1 : f ≠ [] := hne f (by simp)
    have h2 : KeysNodup f := hnd f (by simp)
    have step : foldSnapshot port osnap (f :: rest)
        = foldSnapshot port (applyFrame port osnap f) rest := rfl
    rw [step, ih (applyFrame port osnap f) (fun g hg => hne g (by simp [hg]))
      (fun g hg => hnd g (by simp [hg])), snapGet_applyFrame port osnap f k h1 h2 hk,
      show recentValue (f :: rest) k = mergeLookup (recentValue rest k) (dictGet f k)
        from rfl, mergeLookup_assoc]

theorem snapGet_applyFrame_isSome (port : Nat) (osnap : Option Frame) (f : Frame)
    (k : String) (h : (snapGet osnap k).isSome = true) :
    (snapGet (applyFrame port osnap f) k).isSome = true := by
  cases osnap with
  | none => simp [snapGet] at h
  | some d =>
    by_cases hf : f.isEmpty = true
    · simpa [applyFrame, hf] using h
    · have hfe : f.isEmpty = false := by
        cases hcase : f.isEmpty
        · rfl
        · exact absurd hcase hf
      by_cases ht : truthy (some d) = true
      · simp only [applyFrame, hfe, Bool.false_eq_true, if_false, ht, if_true, snapGet,
          Option.getD_some]
        rw [dictGet_dictUpdate]
        cases hl : lastGet (inferModel port f) k with
        | some w => simp [mergeLookup]
        | none =>
          simp only [mergeLookup]
          exact h
      · have hd : d = [] := by
          cases d with
          | nil => rfl
          | cons a t => simp [truthy] at ht
        subst hd
        simp [snapGet, dictGet] at h

theorem snapGet_foldSnapshot_isSome (port : Nat) (frames : List Frame)
    (osnap : Option Frame) (k : String) (h : (snapGet osnap k).isSome = true) :
    (snapGet (foldSnapshot port osnap frames) k).isSome = true := by
  induction frames generalizing osnap with
  | nil => exact h
  | cons f rest ih => exact ih _ (snapGet_applyFrame_isSome port osnap f k h)

theorem handleMessage_snapshot (port : Nat) (now : ℚ) (data : Frame) (st : WSClient) :
    (handleMessage port now data st).snapshot = applyFrame port st.snapshot data := by
  by_cases h : data.isEmpty = true
  · simp [handleMessage, applyFrame, h]
  · by_cases ht : truthy st.snapshot = true <;>
      simp [handleMessage, applyFrame, h, ht]

theorem runFrames_snapshot (port : Nat) (inputs : List (ℚ × Frame)) (st : WSClient) :
    (runFrames port inputs st).snapshot
      = foldSnapshot port st.snapshot (inputs.map Prod.snd) := by
  induction inputs generalizing st with
  | nil => rfl
  | cons p rest ih =>
    have step : runFrames port (p :: rest) st
        = runFrames port rest (handleMessage port p.1 p.2 st) := rfl
    rw [step, ih, handleMessage_snapshot]
    rfl

theorem handleMessage_connState (port : Nat) (now : ℚ) (data : Frame) (st : WSClient) :
    (handleMessage port now data st).connState = st.connState := by
  by_cases h : data.isEmpty = true
  · simp [handleMessage, h]
  · by_cases ht : truthy st.snapshot = true <;>
      simp [handleMessage, h, ht]

/-! ## Claim theorems -/

/-- C10: a successfully decoded empty frame stamps the last-message time
and has no other effect: the snapshot, the listener-notification count,
the first-frame export flag and the connection state are all unchanged. -/
theorem empty_frame_stamps_time_only (port : Nat) (now : ℚ) (st : WSClient) :
    (handleMessage port now [] st).lastMessageTime = now
    ∧ (handleMessage port now [] st).snapshot = st.snapshot
    ∧ (handleMessage port now [] st).notifyCount = st.notifyCount
    ∧ (handleMessage port now [] st).firstFrameExported = st.firstFrameExported
    ∧ (handleMessage port now [] st).connState = st.connState :=
  ⟨rfl, rfl, rfl, rfl, rfl⟩

/-- C4 counterexample: the claim's merge law fails as universally stated.
On port 9999, a single non-empty frame binding only the key
`detected_model` (to the value `"custom"`) is overwritten by the
port-derived label before the merge, so the snapshot does not map
`detected_model` to the value from the most recent frame containing it. -/
theorem snapshot_merge_law_cex :
    recentValue [[("detected_model", JValue.jstr "custom")]] "detected_model"
      = some (JValue.jstr "custom")
    ∧ snapGet (runFrames 9999 [(1, [("detected_model", JValue.jstr "custom")])]
        initClient).snapshot "detected_model" = some (JValue.jstr "K1 Series (FDM)") := by
  decide

/-- C4 (amended): over any sequence of non-empty decoded frames with
duplicate-free keys, the snapshot maps every key other than the inferred
`detected_model` key to the value from the most recent frame containing
that key; the first frame seeds the snapshot wholesale (after model
inference); and no key once populated is ever removed by later frames. -/
theorem snapshot_merge_law (port : Nat) (inputs : List (ℚ × Frame)) (st : WSClient)
    (hstart : st.snapshot = none)
    (hne : ∀ p ∈ inputs, p.2 ≠ ([] : Frame))
    (hnd : ∀ p ∈ inputs, KeysNodup p.2) :
    (∀ k, k ≠ "detected_model" →
        snapGet (runFrames port inputs st).snapshot k = recentValue (inputs.map Prod.snd) k)
    ∧ (∀ f, f ≠ ([] : Frame) → applyFrame port none f = some (inferModel port f))
    ∧ (∀ (more : List (ℚ × Frame)) (k : String),
        (snapGet (runFrames port inputs st).snapshot k).isSome = true →
        (snapGet (runFrames port (inputs ++ more) st).snapshot k).isSome = true) := by
  refine ⟨?_, ?_, ?_⟩
  · intro k hk
    rw [runFrames_snapshot, hstart,
      snapGet_foldSnapshot port (inputs.map Prod.snd) none k
        (fun g hg => by
          rcases List.mem_map.mp hg with ⟨p, hp, hpeq⟩
          exact hpeq ▸ hne p hp)
        (fun g hg => by
          rcases List.mem_map.mp hg with ⟨p, hp, hpeq⟩
          exact hpeq ▸ hnd p hp) hk,
      show snapGet none k = none from rfl, mergeLookup_none]
  · intro f hf
    have hfe : f.isEmpty = false := by
      cases f with
      | nil => exact absurd rfl hf
      | cons a t => rfl
    simp [applyFrame, hfe, truthy]
  · intro more k h
    rw [runFrames_snapshot, hstart] at h ⊢
    rw [List.map_append, show foldSnapshot port none (inputs.map Prod.snd ++ more.map Prod.snd)
      = foldSnapshot port (foldSnapshot port none (inputs.map Prod.snd)) (more.map Prod.snd)
      from List.foldl_append _ _ _ _]
    exact snapGet_foldSnapshot_isSome port (more.map Prod.snd) _ k h

/-- C4 witness: a concrete two-frame session in which the merge law holds:
frame one sets `nozzleTemp`, frame two sets `bedTemp0`, and the snapshot
maps `nozzleTemp` to the value of the most recent frame containing it. -/
theorem snapshot_merge_law_witness :
    snapGet (runFrames 9999 [(1, [("nozzleTemp", JValue.jnum 200)]),
        (2, [("bedTemp0", JValue.jnum 60)])] initClient).snapshot "nozzleTemp"
      = recentValue [[("nozzleTemp", JValue.jnum 200)], [("bedTemp0", JValue.jnum 60)]]
          "nozzleTemp" :=
  (snapshot_merge_law 9999 [(1, [("nozzleTemp", JValue.jnum 200)]),
      (2, [("bedTemp0", JValue.jnum 60)])] initClient rfl (by decide) (by decide)).1
    "nozzleTemp" (by decide)

/-- C1 counterexample: after the `Connected → Stale` transition performed
by a health query, one fresh inbound frame re-stamps `lastMessageTime`
(shown by the second conjunct), yet the next `isHealthy()` still returns
false, because the first check `state != CONNECTED` short-circuits while
the state is stuck at `Stale`; the claim predicts true here. -/
theorem stale_not_recovered_by_fresh_frame :
    ((isHealthy 100 ⟨ConnState.connected, 0, none, 0, false⟩).2).connState
      = ConnState.stale
    ∧ (handleMessage 9999 101 [("nozzleTemp", JValue.jnum 200)]
        (isHealthy 100 ⟨ConnState.connected, 0, none, 0, false⟩).2).lastMessageTime
      = 101
    ∧ (isHealthy 102 (handleMessage 9999 101 [("nozzleTemp", JValue.jnum 200)]
        (isHealthy 100 ⟨ConnState.connected, 0, none, 0, false⟩).2)).1
      = false := by
  have h1 : (isHealthy 100 (⟨ConnState.connected, 0, none, 0, false⟩ : WSClient))
      = (false, ⟨ConnState.stale, 0, none, 0, false⟩) := by
    norm_num [isHealthy, setState, staleThreshold]
    decide
  have h2 : handleMessage 9999 101 [("nozzleTemp", JValue.jnum 200)]
      (⟨ConnState.stale, 0, none, 0, false⟩ : WSClient)
      = ⟨ConnState.stale, 101, some [("nozzleTemp", JValue.jnum 200),
          ("detected_model", JValue.jstr "K1 Series (FDM)")], 1, true⟩ := by
    simp +decide only [handleMessage, inferModel, hasKey, dictGet, dictSet, truthy]
  rw [h1]
  refine ⟨rfl, ?_, ?_⟩
  · rw [h2]
  · rw [h2]
    decide

/-- C1 (amended): `isHealthy()` returns false whenever the state differs
from `Connected`; when the state is `Connected` and the time since the
last message exceeds 90s it performs the `Connected → Stale` transition
and returns false, and otherwise returns true; but after such a `Stale`
transition a fresh inbound frame does not make `isHealthy()` true again:
the handler leaves the state at `Stale`, and the health query keeps
returning false until a reconnect sets `Connected` again. -/
theorem isHealthy_state_behaviour :
    (∀ (now : ℚ) (st : WSClient), st.connState ≠ ConnState.connected →
        isHealthy now st = (false, st))
    ∧ (∀ (now : ℚ) (st : WSClient), st.connState = ConnState.connected →
        now - st.lastMessageTime > staleThreshold →
        isHealthy now st = (false, { st with connState := ConnState.stale }))
    ∧ (∀ (now : ℚ) (st : WSClient), st.connState = ConnState.connected →
        ¬(now - st.lastMessageTime > staleThreshold) →
        isHealthy now st = (true, st))
    ∧ (∀ (port : Nat) (t now : ℚ) (f : Frame) (st : WSClient),
        st.connState = ConnState.stale →
        (isHealthy now (handleMessage port t f st)).1 = false) := by
  refine ⟨?_, ?_, ?_, ?_⟩
  · intro now st h
    simp [isHealthy, h]
  · intro now st h1 h2
    simp [isHealthy, h1, h2, setState]
  · intro now st h1 h2
    simp [isHealthy, h1, h2]
  · intro port t now f st h
    have hc : (handleMessage port t f st).connState = st.connState :=
      handleMessage_connState port t f st
    simp [isHealthy, hc, h]

/-- C1 witness: the amended behaviour at concrete states: a `connecting`
client is unhealthy; a `connected` client with its last message 100s ago
goes `Stale` and reports false; a `connected` client with its last
message 1s ago reports true; a `stale` client stays unhealthy even right
after a fresh frame. -/
theorem isHealthy_state_behaviour_witness :
    isHealthy 0 ⟨ConnState.connecting, 0, none, 0, false⟩
      = (false, ⟨ConnState.connecting, 0, none, 0, false⟩)
    ∧ isHealthy 100 ⟨ConnState.connected, 0, none, 0, false⟩
      = (false, { (⟨ConnState.connected, 0, none, 0, false⟩ : WSClient) with
          connState := ConnState.stale })
    ∧ isHealthy 1 ⟨ConnState.connected, 0, none, 0, false⟩
      = (true, ⟨ConnState.connected, 0, none, 0, false⟩)
    ∧ (isHealthy 2 (handleMessage 9999 1 [("nozzleTemp", JValue.jnum 200)]
        ⟨ConnState.stale, 0, none, 0, false⟩)).1 = false :=
  ⟨(isHealthy_state_behaviour.1 0 _ (by decide)),
   (isHealthy_state_behaviour.2.1 100 _ rfl (by
      show (100 : ℚ) - 0 > 90
      norm_num)),
   (isHealthy_state_behaviour.2.2.1 1 _ rfl (by
      show ¬((1 : ℚ) - 0 > 90)
      norm_num)),
   (isHealthy_state_behaviour.2.2.2 9999 1 2 _ _ rfl)⟩

/-- C2: the code contradicts the claim.  In a session where every connect
attempt fails and shutdown is never requested, the error handler caps the
attempt counter at 10 and sets the state to `Disconnected`, but the
`while not self._shutdown` drive loop keeps running: after 12 iterations,
12 connection attempts have been opened (two more than the maximum), with
only the 10 backoff delays of the first 10 failures ever slept, so the
extra attempts retry in a tight loop with no backoff. -/
theorem run_loop_retries_after_max_attempts :
    (runConnectFail 12 initRunSt).connectAttempts = 12
    ∧ (runConnectFail 12 initRunSt).attempts = 10
    ∧ (runConnectFail 12 initRunSt).shutdown = false
    ∧ (runConnectFail 12 initRunSt).connState = ConnState.disconnected
    ∧ (runConnectFail 12 initRunSt).sleptDelays
      = [2, 4, 8, 16, 32, 60, 60, 60, 60, 60] := by
  have c : ∀ n : Nat, computeDelay n = min (2 ^ n) 60 := by
    intro n
    norm_num [computeDelay, baseReconnectDelay, maxReconnectDelay]
  have h : runConnectFail 12 initRunSt
      = ⟨false, ConnState.disconnected, 10, 12, [2, 4, 8, 16, 32, 60, 60, 60, 60, 60]⟩ := by
    simp +decide only [runConnectFail, runIterConnectFail, handleConnectionError,
      initRunSt, maxReconnectAttempts]
    norm_num [c, min_def]
  rw [h]
  exact ⟨rfl, rfl, rfl, rfl, rfl⟩

/-- C5: the pre-jitter backoff delay after incrementing the attempt
counter to `n` is `min(1s * 2^n, 60s)`, hence monotonically non-decreasing
in `n`; across the 10 consecutive failures of a failing session the slept
pre-jitter delays are 2, 4, 8, 16, 32, 60, 60, 60, 60, 60 seconds; and
for every jitter draw `j` in [10%, 50%], the total slept delay lies in
`[computed_delay, 1.5 * computed_delay]`. -/
theorem reconnect_backoff_bounds (n : Nat) (j : ℚ) (hj1 : 1 / 10 ≤ j) (hj2 : j ≤ 1 / 2) :
    computeDelay n = min (baseReconnectDelay * 2 ^ n) maxReconnectDelay
    ∧ computeDelay n ≤ computeDelay (n + 1)
    ∧ (runConnectFail 10 initRunSt).sleptDelays
      = [2, 4, 8, 16, 32, 60, 60, 60, 60, 60]
    ∧ computeDelay n ≤ totalDelay n j
    ∧ totalDelay n j ≤ 3 / 2 * computeDelay n := by
  have hd0 : 0 ≤ computeDelay n := by
    apply le_min
    · rw [show baseReconnectDelay = 1 from rfl]
      positivity
    · norm_num [maxReconnectDelay]
  refine ⟨rfl, ?_, ?_, ?_, ?_⟩
  · apply min_le_min _ le_rfl
    have : (2 : ℚ) ^ n ≤ 2 ^ (n + 1) := by
      apply pow_le_pow_right₀ (by norm_num) (by omega)
    simpa [baseReconnectDelay] using this
  · have c : ∀ m : Nat, computeDelay m = min (2 ^ m) 60 := by
      intro m
      norm_num [computeDelay, baseReconnectDelay, maxReconnectDelay]
    simp +decide only [runConnectFail, runIterConnectFail, handleConnectionError,
      initRunSt, maxReconnectAttempts]
    norm_num [c, min_def]
  · have : 0 ≤ j * computeDelay n := mul_nonneg (by linarith) hd0
    simp only [totalDelay]
    linarith
  · have : j * computeDelay n ≤ 1 / 2 * computeDelay n :=
      mul_le_mul_of_nonneg_right hj2 hd0
    simp only [totalDelay]
    linarith

/-- C5 witness: the backoff facts at attempt counter 6 with jitter draw
1/4: the delay caps at 60s and the total slept delay 75s lies within
[60s, 90s]. -/
theorem reconnect_backoff_bounds_witness :
    computeDelay 6 = min (baseReconnectDelay * 2 ^ 6) maxReconnectDelay
    ∧ computeDelay 6 ≤ computeDelay (6 + 1)
    ∧ (runConnectFail 10 initRunSt).sleptDelays
      = [2, 4, 8, 16, 32, 60, 60, 60, 60, 60]
    ∧ computeDelay 6 ≤ totalDelay 6 (1 / 4)
    ∧ totalDelay 6 (1 / 4) ≤ 3 / 2 * computeDelay 6 :=
  reconnect_backoff_bounds 6 (1 / 4) (by norm_num) (by norm_num)

/-- C6: when the connection state is not `Connected`, or no socket object
exists, or the socket is closed, both `send_command` and `send_json`
return false, attempt no socket write, and leave the state unchanged. -/
theorem send_rejected_when_not_connected (command : String) (payload : Frame)
    (writeOk : Bool) (st : SendSt)
    (h : st.connState ≠ ConnState.connected ∨ st.wsExists = false ∨ st.wsClosed = true) :
    sendCommand command writeOk st = (false, st, none)
    ∧ sendJson payload writeOk st = (false, st, none) := by
  constructor
  · rw [sendCommand, if_pos h]
  · rw [sendJson, if_pos h]

/-- C6 witness: a disconnected client with an open socket object rejects
both operations without writing. -/
theorem send_rejected_when_not_connected_witness :
    sendCommand "PRINT_STOP" true ⟨ConnState.disconnected, true, false, "pw"⟩
      = (false, ⟨ConnState.disconnected, true, false, "pw"⟩, none)
    ∧ sendJson [("method", JValue.jstr "set")] true
        ⟨ConnState.disconnected, true, false, "pw"⟩
      = (false, ⟨ConnState.disconnected, true, false, "pw"⟩, none) :=
  send_rejected_when_not_connected "PRINT_STOP" [("method", JValue.jstr "set")] true
    ⟨ConnState.disconnected, true, false, "pw"⟩ (Or.inl (by decide))

set_option maxRecDepth 1000000 in
/-- Validation of the embedded DES primitive against the classic
known-answer vector: key 133457799BBCDFF1, plaintext 0123456789ABCDEF,
ciphertext 85E813540F0AB405. -/
theorem desEcbEncrypt_known_answer :
    desEcbEncrypt [19, 52, 87, 121, 155, 188, 223, 241]
      [1, 35, 69, 103, 137, 171, 205, 239]
      = [133, 232, 19, 84, 15, 10, 180, 5] := by
  decide

set_option maxRecDepth 1000000 in
/-- C7: token generation is a pure, deterministic function of the
password, and on the empty password (also the treatment of a missing
password) it succeeds and produces the fixed token `rEewAogVblw=`:
base64 of the DES-ECB encryption of eight PKCS7 padding bytes under the
embedded constant key `a85e9d68`. -/
theorem token_deterministic_and_fixed :
    (∀ p : String, CrealityWebSocketClient.generateToken p
        = CrealityWebSocketClient.generateToken p)
    ∧ CrealityWebSocketClient.generateToken "" = "rEewAogVblw=" :=
  ⟨fun _ => rfl, by decide⟩

/-- C9: the two `_generate_token` methods, on `CrealityWebSocketClient`
and on `CrealityDataCoordinator`, compute exactly the same function of
the password, so both channels authenticate identically. -/
theorem token_functions_agree :
    ∀ p : String, CrealityWebSocketClient.generateToken p
      = CrealityDataCoordinator.generateToken p :=
  fun _ => rfl

/-- C3 counterexample: with an unhealthy channel, an existing snapshot
binding `a`, and a successful fallback poll returning a frame binding
only `b` (port 8080, no model inference), `_async_update_data` returns
the polled frame alone as the new data: the existing key `a` does not
persist, contradicting the claimed merge semantics. -/
theorem fallback_poll_drops_existing_key :
    asyncUpdateData false (some [("a", JValue.jnum 1)]) (pollData 8080 [("b", JValue.jnum 2)])
      = some [("b", JValue.jnum 2)]
    ∧ snapGet (some [("a", JValue.jnum 1)]) "a" = some (JValue.jnum 1)
    ∧ snapGet (asyncUpdateData false (some [("a", JValue.jnum 1)])
        (pollData 8080 [("b", JValue.jnum 2)])) "a" = none := by
  decide

/-- C3 (amended): when the persistent channel is unhealthy and the
fallback poll succeeds on a non-empty frame, `_async_update_data` returns
the single polled frame (with model inference applied) as the whole new
snapshot, regardless of the current data: the fetched frame replaces the
snapshot destructively, and keys absent from it do not persist. -/
theorem fallback_poll_replaces_snapshot (port : Nat) (curData : Option Frame) (f : Frame)
    (hf : f ≠ []) :
    asyncUpdateData false curData (pollData port f) = some (inferModel port f)
    ∧ (∀ k, hasKey (inferModel port f) k = false →
        snapGet (asyncUpdateData false curData (pollData port f)) k = none) := by
  have hfe : f.isEmpty = false := by
    cases f with
    | nil => exact absurd rfl hf
    | cons a t => rfl
  have hres : asyncUpdateData false curData (pollData port f) = some (inferModel port f) := by
    simp [asyncUpdateData, pollData, hfe]
  refine ⟨hres, ?_⟩
  intro k hk
  rw [hres]
  show dictGet (inferModel port f) k = none
  cases hg : dictGet (inferModel port f) k with
  | none => rfl
  | some v =>
    rw [hasKey, hg] at hk
    simp at hk

/-- C3 witness: the amended behaviour at a concrete state: with snapshot
`{a: 1}` and a fallback frame `{b: 2}` fetched on port 8080, the new data
is exactly the polled frame and lacks the old key `a`. -/
theorem fallback_poll_replaces_snapshot_witness :
    asyncUpdateData false (some [("a", JValue.jnum 1)]) (pollData 8080 [("b", JValue.jnum 2)])
      = some (inferModel 8080 [("b", JValue.jnum 2)])
    ∧ snapGet (asyncUpdateData false (some [("a", JValue.jnum 1)])
        (pollData 8080 [("b", JValue.jnum 2)])) "a" = none :=
  ⟨(fallback_poll_replaces_snapshot 8080 (some [("a", JValue.jnum 1)])
      [("b", JValue.jnum 2)] (by decide)).1,
   (fallback_poll_replaces_snapshot 8080 (some [("a", JValue.jnum 1)])
      [("b", JValue.jnum 2)] (by decide)).2 "a" (by decide)⟩

/-- C8 counterexample: the empty frame contains neither `model` nor
`printerModel`, yet on port 9999 the handler leaves the snapshot exactly
as it was and adds no `detected_model` key, because the `if data:` guard
skips all processing of a falsy frame; the claim as stated requires the
snapshot to gain `detected_model` here. -/
theorem empty_frame_no_model_inference :
    hasKey ([] : Frame) "model" = false
    ∧ hasKey ([] : Frame) "printerModel" = false
    ∧ (handleMessage 9999 5 [] ⟨ConnState.connected, 0,
        some [("x", JValue.jnum 1)], 0, false⟩).snapshot = some [("x", JValue.jnum 1)]
    ∧ snapGet (handleMessage 9999 5 [] ⟨ConnState.connected, 0,
        some [("x", JValue.jnum 1)], 0, false⟩).snapshot "detected_model" = none :=
  ⟨rfl, rfl, rfl, rfl⟩

theorem snapGet_applyFrame_of_inferGet (port : Nat) (osnap : Option Frame) (f : Frame)
    (w : JValue) (hfe : f.isEmpty = false) (hnd : KeysNodup (inferModel port f))
    (hw : dictGet (inferModel port f) "detected_model" = some w) :
    snapGet (applyFrame port osnap f) "detected_model" = some w := by
  by_cases ht : truthy osnap = true
  · cases osnap with
    | none => simp [truthy] at ht
    | some d =>
      simp only [applyFrame, hfe, Bool.false_eq_true, if_false, ht, if_true, snapGet,
        Option.getD_some]
      rw [dictGet_dictUpdate, lastGet_eq_dictGet _ _ hnd, hw]
      rfl
  · have ht' : truthy osnap = false := by
      cases hcase : truthy osnap
      · rfl
      · exact absurd hcase ht
    have hres : applyFrame port osnap f = some (inferModel port f) := by
      simp [applyFrame, hfe, ht']
    rw [hres]
    exact hw

/-- C8 (amended): for every non-empty decoded frame with duplicate-free
keys that contains neither `model` nor `printerModel`, handling it on
port 9999 leaves the snapshot with `detected_model = "K1 Series (FDM)"`
(port 18188: `"Halot Series (Resin)"`), the fallback poll applies the
same rule, and whenever a frame does carry one of the authoritative model
fields, inference changes nothing at all. -/
theorem detected_model_inference (now : ℚ) (f : Frame) (st : WSClient)
    (hf : f ≠ []) (hnd : KeysNodup f)
    (hm : hasKey f "model" = false) (hp : hasKey f "printerModel" = false) :
    snapGet (handleMessage 9999 now f st).snapshot "detected_model"
      = some (JValue.jstr "K1 Series (FDM)")
    ∧ snapGet (handleMessage 18188 now f st).snapshot "detected_model"
      = some (JValue.jstr "Halot Series (Resin)")
    ∧ pollData 9999 f = some (inferModel 9999 f)
    ∧ dictGet (inferModel 9999 f) "detected_model" = some (JValue.jstr "K1 Series (FDM)")
    ∧ (∀ (port : Nat) (g : Frame),
        (hasKey g "model" = true ∨ hasKey g "printerModel" = true) → inferModel port g = g) := by
  have hfe : f.isEmpty = false := by
    cases f with
    | nil => exact absurd rfl hf
    | cons a t => rfl
  have h9999 : inferModel 9999 f = dictSet f "detected_model" (JValue.jstr "K1 Series (FDM)") := by
    simp [inferModel, hm, hp]
  have h18188 : inferModel 18188 f
      = dictSet f "detected_model" (JValue.jstr "Halot Series (Resin)") := by
    simp [inferModel, hm, hp]
  have hw9999 : dictGet (inferModel 9999 f) "detected_model"
      = some (JValue.jstr "K1 Series (FDM)") := by
    rw [h9999, dictGet_dictSet_same]
  have hw18188 : dictGet (inferModel 18188 f) "detected_model"
      = some (JValue.jstr "Halot Series (Resin)") := by
    rw [h18188, dictGet_dictSet_same]
  refine ⟨?_, ?_, ?_, hw9999, ?_⟩
  · rw [handleMessage_snapshot]
    exact snapGet_applyFrame_of_inferGet 9999 st.snapshot f _ hfe
      (keysNodup_inferModel 9999 f hnd) hw9999
  · rw [handleMessage_snapshot]
    exact snapGet_applyFrame_of_inferGet 18188 st.snapshot f _ hfe
      (keysNodup_inferModel 18188 f hnd) hw18188
  · simp [pollData, hfe]
  · intro port g hg
    rcases hg with hg | hg <;> simp [inferModel, hg]

/-- C8 witness: a concrete frame without model fields handled on both
ports, showing the snapshot gains the port-derived label. -/
theorem detected_model_inference_witness :
    snapGet (handleMessage 9999 7 [("nozzleTemp", JValue.jnum 200)]
        ⟨ConnState.connected, 0, none, 0, false⟩).snapshot "detected_model"
      = some (JValue.jstr "K1 Series (FDM)")
    ∧ snapGet (handleMessage 18188 7 [("nozzleTemp", JValue.jnum 200)]
        ⟨ConnState.connected, 0, none, 0, false⟩).snapshot "detected_model"
      = some (JValue.jstr "Halot Series (Resin)") :=
  ⟨(detected_model_inference 7 [("nozzleTemp", JValue.jnum 200)]
      ⟨ConnState.connected, 0, none, 0, false⟩ (by decide) (by decide)
      (by decide) (by decide)).1,
   (detected_model_inference 7 [("nozzleTemp", JValue.jnum 200)]
      ⟨ConnState.connected, 0, none, 0, false⟩ (by decide) (by decide)
      (by decide) (by decide)).2.1⟩

end Creality
